import Mathlib

/-!
# Verification of the `ca_pmda` client library core

Shallow embedding of `src/ca_pmda.py` (a client library for the CA
Performance Management Data Aggregator data-driven API) and proofs about
its Dynamic Attribute Model, scalar encoding, filter-expression compiler
and response-validation logic.

Modelling conventions:

* An XML element (`xml.etree.ElementTree.Element`) is a `Node`: tag,
  attribute association list (in insertion order, first-match lookup,
  mirroring a Python dict keyed by strings), optional `text`, optional
  `tail`, and the ordered list of child elements.
* Python object identity (`id()`) is modelled by an `ElementRef`: an
  object identifier `oid` paired with the current value of the element.
  Mutation of an element is state passing: an operation returns the new
  value of the element, the `oid` never changes.  `Element` defines
  neither `__eq__` nor `__hash__`, so Python `==` on elements is object
  identity and `hash` is derived from the identity; both are modelled
  through `oid`.
* A raised Python exception is an `Except PyError` result.  An operation
  that both mutates and may raise returns `Except PyError α × DynamicModel`:
  the second component is the state of the wrapped document after the
  call, whether or not an exception was raised (Python mutations performed
  before a `raise` persist).
* Python `str.casefold`/`str.lower` are modelled by `pyLower` (character-wise
  ASCII lowering; they agree on the ASCII strings this module manipulates),
  and `str.strip`-based blankness tests by `pyBlank`.
* `Element.find(name)` is modelled for plain child-tag names, the only form
  the attribute protocol of this module uses (path expressions are an
  `ElementPath` feature out of scope here).
* A Python `float` is modelled by its decimal text form (`Scalar.float`
  carries the string `repr` would produce); no claim depends on real
  arithmetic, only on which branch of the encoder a float reaches.
-/

/-- An XML element node (`xml.etree.ElementTree.Element`): tag, attributes,
optional text, optional tail, ordered children. -/
inductive Node : Type where
  | mk : String → List (String × String) → Option String → Option String →
      List Node → Node

mutual

/-- Structural equality of nodes is decidable. -/
def Node.decEq (n m : Node) : Decidable (n = m) :=
  match n, m with
  | .mk t a x l c, .mk t' a' x' l' c' =>
    if h1 : t = t' then
      if h2 : a = a' then
        if h3 : x = x' then
          if h4 : l = l' then
            match Node.decEqList c c' with
            | isTrue h5 => isTrue (by rw [h1, h2, h3, h4, h5])
            | isFalse h5 => isFalse (fun hh => by cases hh; exact h5 rfl)
          else isFalse (fun hh => by cases hh; exact h4 rfl)
        else isFalse (fun hh => by cases hh; exact h3 rfl)
      else isFalse (fun hh => by cases hh; exact h2 rfl)
    else isFalse (fun hh => by cases hh; exact h1 rfl)

/-- Structural equality of node lists is decidable. -/
def Node.decEqList (c c' : List Node) : Decidable (c = c') :=
  match c, c' with
  | [], [] => isTrue rfl
  | [], _ :: _ => isFalse (by simp)
  | _ :: _, [] => isFalse (by simp)
  | a :: as, b :: bs =>
    match Node.decEq a b, Node.decEqList as bs with
    | isTrue h1, isTrue h2 => isTrue (by rw [h1, h2])
    | isFalse h1, _ => isFalse (fun hh => by cases hh; exact h1 rfl)
    | _, isFalse h2 => isFalse (fun hh => by cases hh; exact h2 rfl)

end

instance : DecidableEq Node := Node.decEq

/-- The element's tag. -/
def Node.tag : Node → String
  | .mk t _ _ _ _ => t

/-- The element's attribute list (in insertion order). -/
def Node.attrib : Node → List (String × String)
  | .mk _ a _ _ _ => a

/-- The element's text content (`Element.text`), `none` for Python `None`. -/
def Node.text : Node → Option String
  | .mk _ _ x _ _ => x

/-- The element's tail text (`Element.tail`). -/
def Node.tail : Node → Option String
  | .mk _ _ _ l _ => l

/-- The element's direct children, in document order. -/
def Node.children : Node → List Node
  | .mk _ _ _ _ c => c

/-- Replace the text of a node. -/
def Node.withText : Node → Option String → Node
  | .mk t a _ l c, x => .mk t a x l c

/-- Replace the tail of a node. -/
def Node.withTail : Node → Option String → Node
  | .mk t a x _ c, l => .mk t a x l c

/-- Replace the children of a node. -/
def Node.withChildren : Node → List Node → Node
  | .mk t a x l _, c => .mk t a x l c

/-- `Element.get(key)` / dict-style attribute lookup: first pair whose key
matches. -/
def Node.attribGet (n : Node) (key : String) : Option String :=
  (n.attrib.find? (fun kv => kv.1 = key)).map (fun kv => kv.2)

/-- `attrib[key] = value` on a string-keyed dict: replace the first binding
of `key` if present, otherwise append the new binding. -/
def attribSetList : List (String × String) → String → String →
    List (String × String)
  | [], key, value => [(key, value)]
  | kv :: rest, key, value =>
    if kv.1 = key then (key, value) :: rest
    else kv :: attribSetList rest key value

/-- `Element.set(key, value)`. -/
def Node.attribSet (n : Node) (key : String) (value : String) : Node :=
  .mk n.tag (attribSetList n.attrib key value) n.text n.tail n.children

/-- `Element.find(name)` for a plain child-tag name: the first direct child
whose tag is `name`, if any. -/
def Node.findChild (n : Node) (name : String) : Option Node :=
  n.children.find? (fun c => c.tag = name)

/-- `find` followed by `Element.remove` of the found element: remove the
first direct child tagged `name` (no-op when there is none). -/
def removeFirstTag : List Node → String → List Node
  | [], _ => []
  | c :: cs, name => if c.tag = name then cs else c :: removeFirstTag cs name

/-- Number of direct children of `n` tagged `name`. -/
def Node.countTag (n : Node) (name : String) : Nat :=
  (n.children.filter (fun c => c.tag = name)).length

/-- Python `str.lower`/`str.casefold` on the ASCII strings of this module:
character-wise lowering. -/
def pyLower (s : String) : String :=
  String.mk (s.data.map Char.toLower)

/-- Python `str.startswith`. -/
def pyStartsWith (s pre : String) : Bool :=
  pre.data.isPrefixOf s.data

/-- Python falsy-or-whitespace-only test on a string (`not s or not
s.strip()` collapses to this). -/
def pyBlank (s : String) : Bool :=
  s.data.all (fun c => c.isWhitespace)

/-- A Python scalar: `Scalar = Union[str, int, float, bool]` from the source.
A float is carried as its decimal text form. -/
inductive Scalar : Type where
  | str : String → Scalar
  | int : Int → Scalar
  | float : String → Scalar
  | bool : Bool → Scalar
deriving DecidableEq

/-- Python `str()` applied to a scalar: a string is itself, an integer its
decimal form, a float its decimal form, a bool the capitalised literal. -/
def Scalar.pyStr : Scalar → String
  | .str s => s
  | .int i => toString i
  | .float r => r
  | .bool b => if b then "True" else "False"

/-- The raised exceptions of the module.  `attributeError` carries the
message and the attribute name (the Python error also carries the model
object, which we do not need); `keyError` carries the missing key. -/
inductive PyError : Type where
  | attributeError : String → String → PyError
  | typeError : String → PyError
  | keyError : String → PyError
  | pmdaInfrastructureError : String → PyError
deriving DecidableEq

/-- `IsA` dataclass: a type name and the URI of the service dedicated to
that type. -/
structure IsA : Type where
  name : String
  rootURL : String
deriving DecidableEq

/-- A Python object reference to an element: the object identity `oid`
(modelling `id()`) paired with the current value of the element.  Mutating
an element changes `node` and never `oid`; two live objects never share an
`oid`. -/
structure ElementRef : Type where
  oid : Nat
  node : Node

/-- `DynamicModel`: a structural wrapper around one element node.
`__init__` stores the element in `self.__document__` without copying it. -/
structure DynamicModel : Type where
  document : ElementRef

/-- Replace the value of the wrapped document (a mutation of the underlying
element: same object, new contents). -/
def DynamicModel.withNode (self : DynamicModel) (n : Node) : DynamicModel :=
  ⟨⟨self.document.oid, n⟩⟩

/-- A Python value that can reach `__setattr__` or `_scalar_to_str`:
a scalar, a `DynamicModel`, or a value of any other type (`other`, e.g.
`None` or a list). -/
inductive PyValue : Type where
  | scalar : Scalar → PyValue
  | model : DynamicModel → PyValue
  | other : PyValue

/-- `isinstance(value, bool)`. -/
def isinstanceBool : PyValue → Bool
  | .scalar (.bool _) => true
  | _ => false

/-- `isinstance(value, (str, int, float))`.  A Python `bool` is a subclass
of `int`, so boolean values also satisfy this check. -/
def isinstanceStrIntFloat : PyValue → Bool
  | .scalar _ => true
  | _ => false

/-- `isinstance(value, _scalar_types)` where
`_scalar_types = (str, int, float, bool)`. -/
def isinstanceScalarTypes : PyValue → Bool
  | .scalar _ => true
  | _ => false

/-- `str(value)` for the values this module stringifies (only ever applied
to scalars; the placeholder for other values is never reached). -/
def pyStrValue : PyValue → String
  | .scalar s => s.pyStr
  | _ => ""

/-- `_scalar_to_str`: the bool case is tested first because bools are also
ints; bools encode to the lowercased literal, other scalars to `str(value)`;
anything else raises `TypeError`. -/
def scalarToStr (value : PyValue) : Except PyError String :=
  if isinstanceBool value then .ok (pyLower (pyStrValue value))
  else if isinstanceStrIntFloat value then .ok (pyStrValue value)
  else .error (.typeError "Value must be of type str, int, float or bool.")

/-- The total restriction of `_scalar_to_str` to scalars (on a `Scalar` the
`TypeError` branch is unreachable, see `scalarToStr_scalar`). -/
def encodeScalar : Scalar → String
  | .bool b => pyLower (Scalar.pyStr (.bool b))
  | s => s.pyStr

/-- The result of `DynamicModel.__getattr__`: the text of a scalar
attribute (or the `version` attribute), a nested `DynamicModel` wrapping a
child element that carries a `version` attribute, or the `IsAlso` tuple. -/
inductive GetResult : Type where
  | text : Option String → GetResult
  | nested : Node → GetResult
  | isAlso : List IsA → GetResult
deriving DecidableEq

/-- `findall("./IsAlso/IsA")` followed by building one `IsA` per element
from its `name` and `rootURL` attributes (a missing attribute raises
`KeyError`, as `e.attrib[...]` does). -/
def isAlsoItems (doc : Node) : Except PyError (List IsA) := do
  let isaNodes := (doc.children.filter (fun c => c.tag = "IsAlso")).flatMap
    (fun a => a.children.filter (fun c => c.tag = "IsA"))
  isaNodes.mapM (fun e => do
    let n ← match e.attribGet "name" with
      | some v => pure v
      | none => throw (.keyError "name")
    let r ← match e.attribGet "rootURL" with
      | some v => pure v
      | none => throw (.keyError "rootURL")
    pure (⟨n, r⟩ : IsA))

/-- `DynamicModel.__getattr__`: `version` reads the node's `version`
attribute; `IsAlso` scrapes the `IsAlso/IsA` children; otherwise the first
direct child tagged `name` is looked up — absent raises `AttributeError`,
present with a `version` attribute yields a nested model, present without
one yields its raw text. -/
def DynamicModel.getattr (self : DynamicModel) (name : String) :
    Except PyError GetResult :=
  if name = "version" then
    .ok (.text (self.document.node.attribGet "version"))
  else if name = "IsAlso" then
    (isAlsoItems self.document.node).map .isAlso
  else
    match self.document.node.findChild name with
    | none => .error (.attributeError "Attribute not found." name)
    | some element =>
      if (element.attribGet "version").isSome then .ok (.nested element)
      else .ok (.text element.text)

/-- `DynamicModel.__setattr__`.  Returns the raised exception (if any)
together with the state of the wrapped document after the call: the removal
of the first pre-existing child tagged `name` happens before the value is
dispatched on, so it persists even on the error paths that follow it. -/
def DynamicModel.setattr (self : DynamicModel) (name : String)
    (value : PyValue) : Except PyError Unit × DynamicModel :=
  if name = "version" then
    match value with
    | .scalar (.str v) =>
      (.ok (), self.withNode (self.document.node.attribSet "version" v))
    | _ => (.error (.typeError "Version must be a string."), self)
  else if name = "IsAlso" then
    (.error (.attributeError "This special attribute cannot be set." name),
     self)
  else
    let doc0 := self.document.node
    let doc1 := doc0.withChildren (removeFirstTag doc0.children name)
    if isinstanceScalarTypes value then
      match scalarToStr value with
      | .ok valStr =>
        let newElement : Node := .mk name [] (some valStr) none []
        (.ok (),
         self.withNode (doc1.withChildren (doc1.children ++ [newElement])))
      | .error e => (.error e, self.withNode doc1)
    else
      match value with
      | .model vm =>
        if name ≠ vm.document.node.tag then
          (.error (.typeError ("Value of complex type " ++
             vm.document.node.tag ++ " not appropriate for property " ++
             name ++ ".")),
           self.withNode doc1)
        else
          (.ok (),
           self.withNode
             (doc1.withChildren (doc1.children ++ [vm.document.node])))
      | _ =>
        (.error (.typeError
           "Can only set attribute to a scalar or a DynamicModel."),
         self.withNode doc1)

/-- `DynamicModel.__delattr__`: look up the first direct child tagged
`name`; absent raises `AttributeError`, present removes it. -/
def DynamicModel.delattr (self : DynamicModel) (name : String) :
    Except PyError Unit × DynamicModel :=
  match self.document.node.findChild name with
  | none => (.error (.attributeError "Attribute not found." name), self)
  | some _ =>
    (.ok (),
     self.withNode (self.document.node.withChildren
       (removeFirstTag self.document.node.children name)))

/-- `DynamicModel.__eq__`: `value.__document__ == self.__document__`.
`Element` defines no `__eq__`, so this is object identity of the two
wrapped elements, modelled by their `oid`s. -/
def DynamicModel.beq (self : DynamicModel) (value : DynamicModel) : Bool :=
  value.document.oid == self.document.oid

/-- `DynamicModel.__hash__`: `hash(self.__document__)`.  `Element` defines
no `__hash__`, so this is the identity-derived default hash, a function of
the element's `oid` alone. -/
def DynamicModel.pyHash (self : DynamicModel) : Nat :=
  self.document.oid

/-- `copy.deepcopy` on an element: a fresh object tree whose value equals
the original's.  In the value model the copy is the same value; its fresh
identity is what makes mutations of the copy invisible through the
original reference. -/
def deepcopyNode (n : Node) : Node := n

/-- Python truth-value test `not s or not s.strip()` on an optional string:
true when the string is absent, empty, or whitespace-only. -/
def blankText (s : Option String) : Bool :=
  pyBlank (s.getD "")

/-- The memoised indentation strings of `ElementTree.indent` with the
default two-space step: `"\n"` followed by `2 * level` spaces. -/
def indentation (level : Nat) : String :=
  "\n" ++ String.mk (List.replicate (2 * level) ' ')

/-- The dedent step of `ElementTree.indent`: after the loop over the
children the last child's tail, when whitespace-only, is overwritten with
the parent level's indentation. -/
def fixLastTail : List Node → String → List Node
  | [], _ => []
  | [c], ind =>
    [if pyBlank (c.tail.getD "") then c.withTail (some ind) else c]
  | c :: rest, ind => c :: fixLastTail rest ind

mutual

/-- `_indent_children` of `ElementTree.indent`: blank text becomes the
child-level indentation, children with children are indented recursively,
each child's blank tail becomes the child-level indentation, and the last
child's tail is dedented to the parent level. -/
def indentChildren : Node → Nat → Node
  | .mk t a x l cs, level =>
    let x' := if blankText x then some (indentation (level + 1)) else x
    let cs' := indentChildList cs (level + 1)
    .mk t a x' l (fixLastTail cs' (indentation level))

/-- The loop body of `_indent_children` over a child list at `childLevel`. -/
def indentChildList : List Node → Nat → List Node
  | [], _ => []
  | c :: rest, childLevel =>
    let c1 := if c.children.length ≠ 0 then indentChildren c childLevel
              else c
    let c2 := if blankText c1.tail then
                c1.withTail (some (indentation childLevel))
              else c1
    c2 :: indentChildList rest childLevel

end

/-- `ElementTree.indent(tree)` with the default two-space step and level 0:
a tree without children is returned untouched. -/
def indentNode (tree : Node) : Node :=
  if tree.children.length = 0 then tree else indentChildren tree 0

/-- `xml.etree.ElementTree`'s escaping of character data: `&`, `<`, `>`. -/
def escapeCdata (s : String) : String :=
  String.join (s.toList.map (fun ch =>
    if ch = '&' then "&amp;"
    else if ch = '<' then "&lt;"
    else if ch = '>' then "&gt;"
    else String.mk [ch]))

/-- `xml.etree.ElementTree`'s escaping of attribute values: additionally
`"` and the whitespace characters CR, LF, TAB. -/
def escapeAttrib (s : String) : String :=
  String.join (s.toList.map (fun ch =>
    if ch = '&' then "&amp;"
    else if ch = '<' then "&lt;"
    else if ch = '>' then "&gt;"
    else if ch = '"' then "&quot;"
    else if ch = '\r' then "&#13;"
    else if ch = '\n' then "&#10;"
    else if ch = '\t' then "&#09;"
    else String.mk [ch]))

mutual

/-- `ElementTree.tostring(elem, "unicode")`: open tag with attributes in
order; an element with falsy text and no children is self-closed, otherwise
text and children are serialized between the tags; a present tail follows. -/
def serializeNode : Node → String
  | .mk t a x l cs =>
    let attrs := String.join (a.map (fun kv =>
      " " ++ kv.1 ++ "=\"" ++ escapeAttrib kv.2 ++ "\""))
    let tailStr := match l with
      | some s => escapeCdata s
      | none => ""
    let xs := x.getD ""
    if xs = "" ∧ cs = [] then
      "<" ++ t ++ attrs ++ " />" ++ tailStr
    else
      "<" ++ t ++ attrs ++ ">" ++ escapeCdata xs ++ serializeList cs ++
        "</" ++ t ++ ">" ++ tailStr

/-- Serialization of a list of sibling elements in order. -/
def serializeList : List Node → String
  | [] => ""
  | c :: cs => serializeNode c ++ serializeList cs

end

/-- `dump_dynamic_model`: deep-copy the wrapped document, indent the copy
in place, serialize the copy.  The pair returns the rendered text together
with the state of the model after the call (only operations applied to the
model's own document object could change it; `indent` is applied to the
copy). -/
def dump_dynamic_model (m : DynamicModel) : String × DynamicModel :=
  let doc := deepcopyNode m.document.node
  let doc2 := indentNode doc
  (serializeNode doc2, m)

/-- `ComparisonOp`: the fixed operator enumeration of the filter schema. -/
inductive ComparisonOp : Type where
  | LESS
  | LESS_OR_EQUAL
  | GREATER
  | GREATER_OR_EQUAL
  | EQUAL
  | CONTAINS
  | STARTS_WITH
  | ENDS_WITH
  | REGEX
  | IS_NULL
deriving DecidableEq

/-- The literal operator string (in the source the operator is carried
directly as this literal). -/
def ComparisonOp.opName : ComparisonOp → String
  | .LESS => "LESS"
  | .LESS_OR_EQUAL => "LESS_OR_EQUAL"
  | .GREATER => "GREATER"
  | .GREATER_OR_EQUAL => "GREATER_OR_EQUAL"
  | .EQUAL => "EQUAL"
  | .CONTAINS => "CONTAINS"
  | .STARTS_WITH => "STARTS_WITH"
  | .ENDS_WITH => "ENDS_WITH"
  | .REGEX => "REGEX"
  | .IS_NULL => "IS_NULL"

/-- The filter expression tree: `AttributeComparison(prop_name, operator,
prop_value, ignoreCase)` leaves and the `Not`/`And`/`Or` operators (`Not`
is constructible with exactly one operand, `And`/`Or` with any number). -/
inductive Expression : Type where
  | comparison : String → ComparisonOp → Scalar → Bool → Expression
  | Not : Expression → Expression
  | And : List Expression → Expression
  | Or : List Expression → Expression

mutual

/-- `__toxml__`: a comparison leaf becomes an element tagged with the
property name, a `type` attribute holding the operator literal, an
`ignoreCase="true"` attribute exactly when the flag is set, and the encoded
scalar as text (`e.text = _scalar_to_str(prop_value)`, which on a `Scalar`
is `encodeScalar`, see `scalarToStr_scalar`); an operator node becomes an
element tagged with its own class name containing the compiled operands in
order. -/
def Expression.toxml : Expression → Node
  | .comparison p op v ic =>
    .mk p
      (if ic then [("type", op.opName), ("ignoreCase", "true")]
       else [("type", op.opName)])
      (some (encodeScalar v)) none []
  | .Not o => .mk "Not" [] none none [Expression.toxml o]
  | .And os => .mk "And" [] none none (Expression.toxmlList os)
  | .Or os => .mk "Or" [] none none (Expression.toxmlList os)

/-- The `for o in self.operands: e.append(o.__toxml__())` loop. -/
def Expression.toxmlList : List Expression → List Node
  | [] => []
  | e :: es => Expression.toxml e :: Expression.toxmlList es

end

/-- An HTTP response as consumed after `raise_for_status`: the header map
and the XML document that `ElementTree.fromstring` yields from the body
(body bytes and the XML parser itself are external collaborators). -/
structure HttpResponse : Type where
  headers : List (String × String)
  doc : Node

/-- Case-insensitive header lookup of `requests` (`CaseInsensitiveDict`):
first header whose lowercased name matches the lowercased key.  A `none`
result corresponds to the `KeyError` a subscript access raises. -/
def headersGet (headers : List (String × String)) (key : String) :
    Option String :=
  (headers.find? (fun kv => pyLower kv.1 = pyLower key)).map (fun kv => kv.2)

/-- `DynamicClient._parse_xml_response_data`: read the `content-type`
header (a missing header raises `KeyError`), casefold its value, require
`application/xml` exactly or an `application/xml;`-prefixed value, else
raise `PmdaInfrastructureError`; on success parse and return the body
document. -/
def parse_xml_response_data (response : HttpResponse) :
    Except PyError Node :=
  match headersGet response.headers "content-type" with
  | none => .error (.keyError "content-type")
  | some ct =>
    let response_content_type := pyLower ct
    let expected_content_type := "application/xml"
    if response_content_type ≠ expected_content_type ∧
        ¬ pyStartsWith response_content_type (expected_content_type ++ ";")
    then
      .error (.pmdaInfrastructureError
        ("CA PM DA client requested XML, but got " ++ response_content_type
          ++ " instead."))
    else
      .ok response.doc

/-- The response-processing tail of `DynamicClient.filtered_get_list`:
validate and parse the response, then yield one `DynamicModel` per direct
child of the response document (the list of the child nodes each generator
step wraps). -/
def filtered_get_list_response (response : HttpResponse) :
    Except PyError (List Node) :=
  (parse_xml_response_data response).map Node.children

/-- Decidable equality of `Except` results, for concrete evaluations. -/
instance {e a : Type} [DecidableEq e] [DecidableEq a] :
    DecidableEq (Except e a) := fun x y =>
  match x, y with
  | .ok u, .ok v =>
    if h : u = v then isTrue (by rw [h])
    else isFalse (fun hh => h (Except.ok.inj hh))
  | .error u, .error v =>
    if h : u = v then isTrue (by rw [h])
    else isFalse (fun hh => h (Except.error.inj hh))
  | .ok _, .error _ => isFalse (fun hh => Except.noConfusion hh)
  | .error _, .ok _ => isFalse (fun hh => Except.noConfusion hh)

/-!
## Helper lemmas
-/

@[simp]
theorem Node.tag_mk (t : String) (a : List (String × String))
    (x l : Option String) (c : List Node) : (Node.mk t a x l c).tag = t := rfl

@[simp]
theorem Node.attrib_mk (t : String) (a : List (String × String))
    (x l : Option String) (c : List Node) :
    (Node.mk t a x l c).attrib = a := rfl

@[simp]
theorem Node.text_mk (t : String) (a : List (String × String))
    (x l : Option String) (c : List Node) : (Node.mk t a x l c).text = x := rfl

@[simp]
theorem Node.tail_mk (t : String) (a : List (String × String))
    (x l : Option String) (c : List Node) : (Node.mk t a x l c).tail = l := rfl

@[simp]
theorem Node.children_mk (t : String) (a : List (String × String))
    (x l : Option String) (c : List Node) :
    (Node.mk t a x l c).children = c := rfl

@[simp]
theorem Node.children_withChildren (n : Node) (c : List Node) :
    (n.withChildren c).children = c := by cases n; rfl

@[simp]
theorem Node.tag_withChildren (n : Node) (c : List Node) :
    (n.withChildren c).tag = n.tag := by cases n; rfl

@[simp]
theorem Node.attrib_withChildren (n : Node) (c : List Node) :
    (n.withChildren c).attrib = n.attrib := by cases n; rfl

@[simp]
theorem Node.text_withChildren (n : Node) (c : List Node) :
    (n.withChildren c).text = n.text := by cases n; rfl

@[simp]
theorem DynamicModel.document_withNode (m : DynamicModel) (n : Node) :
    (m.withNode n).document = ⟨m.document.oid, n⟩ := rfl

theorem scalarToStr_scalar (s : Scalar) :
    scalarToStr (.scalar s) = .ok (encodeScalar s) := by
  cases s <;> rfl

theorem toxmlList_eq_map (os : List Expression) :
    Expression.toxmlList os = os.map Expression.toxml := by
  induction os with
  | nil => rfl
  | cons e es ih => simp [Expression.toxmlList, ih]

theorem length_filter_removeFirstTag (cs : List Node) (name : String) :
    ((removeFirstTag cs name).filter (fun c => c.tag = name)).length
      = (cs.filter (fun c => c.tag = name)).length - 1 := by
  induction cs with
  | nil => rfl
  | cons c cs ih =>
    by_cases h : c.tag = name
    · simp [removeFirstTag, h]
    · simp [removeFirstTag, h, ih]

theorem find?_append_of_none {α : Type} {p : α → Bool} (l1 l2 : List α)
    (h : l1.find? p = none) : (l1 ++ l2).find? p = l2.find? p := by
  induction l1 with
  | nil => rfl
  | cons a as ih =>
    cases hp : p a with
    | true => simp [List.find?_cons, hp] at h
    | false =>
      simp only [List.cons_append, List.find?_cons, hp] at h ⊢
      exact ih h

theorem removeFirstTag_append_of_no_match (l1 l2 : List Node) (name : String)
    (h : ∀ x ∈ l1, ¬ x.tag = name) :
    removeFirstTag (l1 ++ l2) name = l1 ++ removeFirstTag l2 name := by
  induction l1 with
  | nil => rfl
  | cons a as ih =>
    have ha : ¬ a.tag = name := h a (List.mem_cons_self a as)
    simp only [List.cons_append, removeFirstTag, if_neg ha, List.append_eq]
    rw [ih (fun x hx => h x (List.mem_cons_of_mem a hx))]

/-!
## Claim theorems
-/

/-- C6: the scalar encoder maps `true` to `"true"` and `false` to `"false"`
(never `"1"`/`"0"`); the boolean test comes before the integer test — a
boolean also satisfies the `(str, int, float)` instance test because a
Python bool is an int, yet it is encoded as the lowercase literal — and
every value that is not text, integer, real or boolean raises the
`TypeError`. -/
theorem C6_scalar_to_str_spec :
    scalarToStr (.scalar (.bool true)) = .ok "true" ∧
    scalarToStr (.scalar (.bool false)) = .ok "false" ∧
    (∀ b : Bool, isinstanceStrIntFloat (.scalar (.bool b)) = true ∧
      scalarToStr (.scalar (.bool b)) ≠ .ok "1" ∧
      scalarToStr (.scalar (.bool b)) ≠ .ok "0") ∧
    (∀ v : PyValue, isinstanceScalarTypes v = false →
      scalarToStr v =
        .error (.typeError "Value must be of type str, int, float or bool.")) := by
  refine ⟨rfl, rfl, ?_, ?_⟩
  · intro b
    cases b <;> exact ⟨rfl, by decide, by decide⟩
  · intro v hv
    cases v with
    | scalar s => simp [isinstanceScalarTypes] at hv
    | model m => rfl
    | other => rfl

/-- Witness for C6: the concrete non-scalar value `other` (e.g. `None`)
raises the `TypeError`. -/
theorem C6_scalar_to_str_spec_witness :
    scalarToStr .other =
      .error (.typeError "Value must be of type str, int, float or bool.") :=
  C6_scalar_to_str_spec.2.2.2 .other rfl

/-- C2: two `DynamicModel`s over the same element compare equal and hash
identically; two models compare equal exactly when their wrapped documents
are the same object (equal `oid`), independently of the nodes' structural
contents — in particular structurally identical nodes held by distinct
objects compare unequal. -/
theorem C2_eq_hash_identity :
    (∀ r : ElementRef,
      DynamicModel.beq ⟨r⟩ ⟨r⟩ = true ∧
      DynamicModel.pyHash ⟨r⟩ = DynamicModel.pyHash ⟨r⟩) ∧
    (∀ m1 m2 : DynamicModel,
      (DynamicModel.beq m1 m2 = true ↔ m1.document.oid = m2.document.oid)) ∧
    (∀ (o1 o2 : Nat) (n : Node), o1 ≠ o2 →
      DynamicModel.beq ⟨⟨o1, n⟩⟩ ⟨⟨o2, n⟩⟩ = false) := by
  refine ⟨fun r => ⟨?_, rfl⟩, fun m1 m2 => ?_, fun o1 o2 n h => ?_⟩
  · exact beq_self_eq_true r.oid
  · show (m2.document.oid == m1.document.oid) = true ↔ _
    rw [beq_iff_eq]
    exact eq_comm
  · show (o2 == o1) = false
    rw [beq_eq_false_iff_ne]
    exact fun hh => h hh.symm

/-- Witness for C2: structurally identical nodes under distinct object
identities give models that do not compare equal. -/
theorem C2_eq_hash_identity_witness :
    DynamicModel.beq ⟨⟨0, Node.mk "A" [] none none []⟩⟩
      ⟨⟨1, Node.mk "A" [] none none []⟩⟩ = false :=
  C2_eq_hash_identity.2.2 0 1 (Node.mk "A" [] none none []) (by decide)

/-- C5: compiling a comparison leaf yields an element tagged with the
property name itself, a `type` attribute equal to the operator name, an
`ignoreCase="true"` attribute exactly when the flag is set, the encoded
scalar as its text and no children; compiling `Not`/`And`/`Or` yields an
element tagged with the variant's own name containing the compiled
children in order. -/
theorem C5_toxml_shape :
    (∀ (p : String) (op : ComparisonOp) (v : Scalar) (ic : Bool),
      (Expression.toxml (.comparison p op v ic)).tag = p ∧
      (Expression.toxml (.comparison p op v ic)).attribGet "type"
        = some op.opName ∧
      ((Expression.toxml (.comparison p op v ic)).attribGet "ignoreCase"
        = some "true" ↔ ic = true) ∧
      (Expression.toxml (.comparison p op v ic)).text
        = some (encodeScalar v) ∧
      (Expression.toxml (.comparison p op v ic)).children = []) ∧
    (∀ o : Expression,
      Expression.toxml (.Not o) = Node.mk "Not" [] none none [o.toxml]) ∧
    (∀ os : List Expression,
      Expression.toxml (.And os)
        = Node.mk "And" [] none none (os.map Expression.toxml)) ∧
    (∀ os : List Expression,
      Expression.toxml (.Or os)
        = Node.mk "Or" [] none none (os.map Expression.toxml)) := by
  refine ⟨fun p op v ic => ⟨?_, ?_, ?_, ?_, ?_⟩, fun o => rfl,
    fun os => ?_, fun os => ?_⟩
  · cases ic <;> rfl
  · cases ic <;> simp [Expression.toxml, Node.attribGet]
  · cases ic <;> simp [Expression.toxml, Node.attribGet]
  · cases ic <;> rfl
  · cases ic <;> rfl
  · simp [Expression.toxml, toxmlList_eq_map]
  · simp [Expression.toxml, toxmlList_eq_map]

/-- C9: rendering a model to text deep-copies the wrapped document and
pretty-prints the copy, so the model (and its node) after the call is
exactly the model before the call, and the rendered text is a pure
function of the node's value; the indentation step genuinely rewrites
nodes (witnessed by a node whose text it changes), so the copy is what
shields the caller's document. -/
theorem C9_dump_frame :
    (∀ m : DynamicModel,
      (dump_dynamic_model m).2 = m ∧
      (dump_dynamic_model m).1
        = serializeNode (indentNode m.document.node)) ∧
    (∃ n : Node, indentNode n ≠ n) := by
  exact ⟨fun m => ⟨rfl, rfl⟩,
    ⟨Node.mk "a" [] none none [Node.mk "b" [] none none []], by decide⟩⟩

/-- C7: once the response carries a `content-type` header (looked up
case-insensitively on the header name), the filtered-list call fails with
`PmdaInfrastructureError` whenever the casefolded value is neither exactly
`application/xml` nor `application/xml;`-prefixed — and then no child of
the response document is wrapped (no model list is produced) — while any
`application/xml` or `application/xml;`-prefixed value (case-insensitively)
passes validation and every direct child is wrapped. -/
theorem C7_content_type_validation (r : HttpResponse) (ct : String)
    (h : headersGet r.headers "content-type" = some ct) :
    ((pyLower ct ≠ "application/xml" ∧
        ¬ pyStartsWith (pyLower ct) "application/xml;") →
      filtered_get_list_response r = .error (.pmdaInfrastructureError
        ("CA PM DA client requested XML, but got " ++ pyLower ct
          ++ " instead."))) ∧
    ((pyLower ct = "application/xml" ∨
        pyStartsWith (pyLower ct) "application/xml;") →
      filtered_get_list_response r = .ok r.doc.children) := by
  have e : ("application/xml" ++ ";") = "application/xml;" := rfl
  constructor
  · intro hbad
    simp only [filtered_get_list_response, parse_xml_response_data, h, e,
      if_pos hbad]
    rfl
  · intro hok
    have hnot : ¬ (pyLower ct ≠ "application/xml" ∧
        ¬ pyStartsWith (pyLower ct) "application/xml;") := by
      rcases hok with h1 | h2
      · exact fun hc => hc.1 h1
      · exact fun hc => hc.2 h2
    simp only [filtered_get_list_response, parse_xml_response_data, h, e,
      if_neg hnot]
    rfl

/-- Witness for C7: a `text/plain` response (header name cased differently)
fails with `PmdaInfrastructureError`; an `application/XML`-typed response
passes and yields the wrapped children. -/
theorem C7_content_type_validation_witness :
    filtered_get_list_response
        ⟨[("Content-Type", "TEXT/plain")], Node.mk "L" [] none none []⟩
      = .error (.pmdaInfrastructureError
          "CA PM DA client requested XML, but got text/plain instead.") ∧
    filtered_get_list_response
        ⟨[("content-type", "application/XML")],
          Node.mk "L" [] none none [Node.mk "X" [] none none []]⟩
      = .ok [Node.mk "X" [] none none []] :=
  ⟨(C7_content_type_validation
      ⟨[("Content-Type", "TEXT/plain")], Node.mk "L" [] none none []⟩
      "TEXT/plain" rfl).1 (by decide),
   (C7_content_type_validation
      ⟨[("content-type", "application/XML")],
        Node.mk "L" [] none none [Node.mk "X" [] none none []]⟩
      "application/XML" rfl).2 (by decide)⟩

/-- C10: a response with no `content-type` header at all fails with the
`KeyError` of the header-map subscript, not with `PmdaInfrastructureError`;
conversely a `PmdaInfrastructureError` can only arise when a
`content-type` header is present and its value is neither `application/xml`
nor `application/xml;`-prefixed. -/
theorem C10_missing_content_type :
    (∀ r : HttpResponse,
      headersGet r.headers "content-type" = none →
      filtered_get_list_response r = .error (.keyError "content-type")) ∧
    (∀ (r : HttpResponse) (msg : String),
      filtered_get_list_response r
        = .error (.pmdaInfrastructureError msg) →
      ∃ ct, headersGet r.headers "content-type" = some ct ∧
        pyLower ct ≠ "application/xml" ∧
        ¬ pyStartsWith (pyLower ct) "application/xml;") := by
  constructor
  · intro r h
    simp only [filtered_get_list_response, parse_xml_response_data, h]
    rfl
  · intro r msg h
    cases hh : headersGet r.headers "content-type" with
    | none =>
      simp only [filtered_get_list_response, parse_xml_response_data,
        hh] at h
      cases h
    | some ct =>
      by_cases hc : pyLower ct ≠ "application/xml" ∧
          ¬ pyStartsWith (pyLower ct) "application/xml;"
      · exact ⟨ct, rfl, hc⟩
      · have e : ("application/xml" ++ ";") = "application/xml;" := rfl
        simp only [filtered_get_list_response, parse_xml_response_data,
          hh, e, if_neg hc] at h
        cases h

/-- Witness for C10: a header map with no `content-type` entry gives the
`KeyError`; a `text/plain` response lets the theorem recover the offending
header value. -/
theorem C10_missing_content_type_witness :
    filtered_get_list_response
        ⟨[("accept", "application/xml")], Node.mk "L" [] none none []⟩
      = .error (.keyError "content-type") ∧
    (∃ ct, headersGet [("content-type", "text/plain")] "content-type"
        = some ct ∧
      pyLower ct ≠ "application/xml" ∧
      ¬ pyStartsWith (pyLower ct) "application/xml;") :=
  ⟨C10_missing_content_type.1
      ⟨[("accept", "application/xml")], Node.mk "L" [] none none []⟩ rfl,
   C10_missing_content_type.2
      ⟨[("content-type", "text/plain")], Node.mk "L" [] none none []⟩
      "CA PM DA client requested XML, but got text/plain instead." rfl⟩

theorem length_filter_replace (cs : List Node) (name : String) (e : Node)
    (he : e.tag = name) :
    ((removeFirstTag cs name ++ [e]).filter
        (fun c => c.tag = name)).length
      = max 1 (cs.filter (fun c => c.tag = name)).length := by
  rw [List.filter_append, List.length_append, length_filter_removeFirstTag]
  simp [he]
  omega

theorem removeFirstTag_no_match (cs : List Node) (name : String)
    (h : (cs.filter (fun c => c.tag = name)).length ≤ 1) :
    ∀ x ∈ removeFirstTag cs name, ¬ (x.tag = name) := by
  intro x hx hpx
  have h0 : ((removeFirstTag cs name).filter
      (fun c => c.tag = name)).length = 0 := by
    rw [length_filter_removeFirstTag]
    omega
  have hmem : x ∈ (removeFirstTag cs name).filter
      (fun c => c.tag = name) :=
    List.mem_filter.mpr ⟨hx, decide_eq_true hpx⟩
  rw [List.length_eq_zero] at h0
  rw [h0] at hmem
  cases hmem

theorem find?_removeFirstTag_none (cs : List Node) (name : String)
    (h : (cs.filter (fun c => c.tag = name)).length ≤ 1) :
    (removeFirstTag cs name).find? (fun c => c.tag = name) = none := by
  rw [List.find?_eq_none]
  intro x hx
  simp only [decide_eq_true_eq]
  exact removeFirstTag_no_match cs name h x hx

/-- C1 fails on the code: assigning a nested model with a mismatching tag
raises the TypeKind error, but the pre-existing child tagged `name` has
already been removed when the error is raised — here a parent with one
child `<A>` ends up with no children at all, so the parent is modified. -/
theorem C1_counterexample :
    (DynamicModel.setattr ⟨⟨0, Node.mk "P" [] none none
        [Node.mk "A" [] (some "old") none []]⟩⟩ "A"
      (.model ⟨⟨1, Node.mk "B" [] none none []⟩⟩)).1
      = .error (.typeError
          "Value of complex type B not appropriate for property A.") ∧
    (DynamicModel.setattr ⟨⟨0, Node.mk "P" [] none none
        [Node.mk "A" [] (some "old") none []]⟩⟩ "A"
      (.model ⟨⟨1, Node.mk "B" [] none none []⟩⟩)).2.document.node.children
      = [] := ⟨rfl, rfl⟩

/-- C1 amended: assigning a nested model whose node tag differs from the
target field name fails with the TypeKind error, but the parent is left
with the first pre-existing child tagged `name` removed (and nothing
appended); the wrapped object itself is unchanged (same `oid`). -/
theorem C1_amended (self : DynamicModel) (name : String) (vm : DynamicModel)
    (h1 : name ≠ "version") (h2 : name ≠ "IsAlso")
    (h3 : self.document.node.findChild name ≠ none)
    (h4 : vm.document.node.tag ≠ name) :
    (self.setattr name (.model vm)).1 = .error (.typeError
      ("Value of complex type " ++ vm.document.node.tag ++
        " not appropriate for property " ++ name ++ ".")) ∧
    (self.setattr name (.model vm)).2.document.node.children
      = removeFirstTag self.document.node.children name ∧
    (self.setattr name (.model vm)).2.document.oid = self.document.oid := by
  have hne : name ≠ vm.document.node.tag := fun hh => h4 hh.symm
  simp only [DynamicModel.setattr, if_neg h1, if_neg h2,
    isinstanceScalarTypes, Bool.false_eq_true, if_false, if_pos hne,
    DynamicModel.withNode, Node.children_withChildren]
  exact ⟨trivial, trivial, trivial⟩

/-- Witness for the amended C1 at a concrete parent `<P><A>old</A></P>`
and nested model `<B/>`. -/
theorem C1_amended_witness :
    (DynamicModel.setattr ⟨⟨2, Node.mk "P" [] none none
        [Node.mk "A" [] (some "old") none []]⟩⟩ "A"
      (.model ⟨⟨3, Node.mk "B" [] none none []⟩⟩)).2.document.node.children
      = [] := by
  have h := C1_amended ⟨⟨2, Node.mk "P" [] none none
      [Node.mk "A" [] (some "old") none []]⟩⟩ "A"
    ⟨⟨3, Node.mk "B" [] none none []⟩⟩ (by decide) (by decide) (by decide)
    (by decide)
  exact h.2.1

/-- C3 fails on the code when the node initially holds more than one direct
child with the target tag: only the first is removed, so after a successful
set two children tagged `A` remain, not exactly one. -/
theorem C3_counterexample :
    (DynamicModel.setattr ⟨⟨0, Node.mk "P" [] none none
        [Node.mk "A" [] (some "u") none [],
         Node.mk "A" [] (some "v") none []]⟩⟩ "A"
      (.scalar (.str "x"))).1 = .ok () ∧
    (DynamicModel.setattr ⟨⟨0, Node.mk "P" [] none none
        [Node.mk "A" [] (some "u") none [],
         Node.mk "A" [] (some "v") none []]⟩⟩ "A"
      (.scalar (.str "x"))).2.document.node.countTag "A" = 2 ∧
    ¬ (DynamicModel.setattr ⟨⟨0, Node.mk "P" [] none none
        [Node.mk "A" [] (some "u") none [],
         Node.mk "A" [] (some "v") none []]⟩⟩ "A"
      (.scalar (.str "x"))).2.document.node.countTag "A" = 1 := by
  exact ⟨rfl, rfl, by decide⟩

/-- C3 amended: setting a non-special attribute to a scalar or to a
tag-matching model succeeds and removes only the *first* pre-existing
direct child with that tag before appending the new one, so the node ends
with `max 1 k` children of that tag where `k` is the initial count — in
particular exactly one whenever the node initially held at most one. -/
theorem C3_amended (self : DynamicModel) (name : String) (value : PyValue)
    (h1 : name ≠ "version") (h2 : name ≠ "IsAlso")
    (hv : (∃ s, value = .scalar s) ∨
          (∃ vm, value = .model vm ∧ vm.document.node.tag = name)) :
    (self.setattr name value).1 = .ok () ∧
    (self.setattr name value).2.document.node.countTag name
      = max 1 (self.document.node.countTag name) ∧
    (self.document.node.countTag name ≤ 1 →
      (self.setattr name value).2.document.node.countTag name = 1) := by
  have main : (self.setattr name value).1 = .ok () ∧
      (self.setattr name value).2.document.node.countTag name
        = max 1 (self.document.node.countTag name) := by
    rcases hv with ⟨s, rfl⟩ | ⟨vm, rfl, htag⟩
    · simp only [DynamicModel.setattr, if_neg h1, if_neg h2,
        isinstanceScalarTypes, if_true, scalarToStr_scalar,
        DynamicModel.withNode, Node.countTag, Node.children_withChildren]
      refine ⟨trivial, ?_⟩
      exact length_filter_replace self.document.node.children name
        (Node.mk name [] (some (encodeScalar s)) none []) rfl
    · have hne : ¬ name ≠ vm.document.node.tag := fun hh => hh htag.symm
      simp only [DynamicModel.setattr, if_neg h1, if_neg h2,
        isinstanceScalarTypes, Bool.false_eq_true, if_false, if_neg hne,
        DynamicModel.withNode, Node.countTag, Node.children_withChildren]
      refine ⟨trivial, ?_⟩
      exact length_filter_replace self.document.node.children name
        vm.document.node htag
  refine ⟨main.1, main.2, fun hle => ?_⟩
  rw [main.2]
  exact Nat.max_eq_left hle

/-- Witness for the amended C3: setting a fresh scalar field on an empty
`ManageableDevice` document yields exactly one child with that tag. -/
theorem C3_amended_witness :
    (DynamicModel.setattr ⟨⟨0, Node.mk "ManageableDevice" [] none none []⟩⟩
      "SNMPProfileID" (.scalar (.int 4567))).2.document.node.countTag
        "SNMPProfileID" = 1 := by
  have h := C3_amended ⟨⟨0, Node.mk "ManageableDevice" [] none none []⟩⟩
    "SNMPProfileID" (.scalar (.int 4567)) (by decide) (by decide)
    (Or.inl ⟨.int 4567, rfl⟩)
  exact h.2.2 (by decide)

/-- C4 fails on the code when the node initially holds duplicate children
with the target tag: `find` returns the surviving *older* duplicate, so the
get after the set returns its text `"v"`, not the encoding `"4567"` of the
value just set. -/
theorem C4_counterexample :
    ((DynamicModel.setattr ⟨⟨0, Node.mk "P" [] none none
        [Node.mk "A" [] (some "u") none [],
         Node.mk "A" [] (some "v") none []]⟩⟩ "A"
      (.scalar (.int 4567))).2.getattr "A") = .ok (.text (some "v")) ∧
    ((DynamicModel.setattr ⟨⟨0, Node.mk "P" [] none none
        [Node.mk "A" [] (some "u") none [],
         Node.mk "A" [] (some "v") none []]⟩⟩ "A"
      (.scalar (.int 4567))).2.getattr "A")
      ≠ .ok (.text (some (encodeScalar (.int 4567)))) := by
  exact ⟨rfl, by decide⟩

/-- C4 amended: on a node holding at most one direct child with the target
tag, setting a non-special attribute to a scalar and reading it back yields
the canonical string encoding of the scalar (as text, never the original
type). -/
theorem C4_amended (self : DynamicModel) (name : String) (s : Scalar)
    (h1 : name ≠ "version") (h2 : name ≠ "IsAlso")
    (hdup : self.document.node.countTag name ≤ 1) :
    (self.setattr name (.scalar s)).1 = .ok () ∧
    ((self.setattr name (.scalar s)).2.getattr name)
      = .ok (.text (some (encodeScalar s))) := by
  have hfil : (self.document.node.children.filter
      (fun c => c.tag = name)).length ≤ 1 := hdup
  constructor
  · simp only [DynamicModel.setattr, if_neg h1, if_neg h2,
      isinstanceScalarTypes, if_true, scalarToStr_scalar]
  · simp only [DynamicModel.setattr, if_neg h1, if_neg h2,
      isinstanceScalarTypes, if_true, scalarToStr_scalar,
      DynamicModel.getattr, DynamicModel.withNode, Node.findChild,
      Node.children_withChildren]
    rw [find?_append_of_none _ _ (find?_removeFirstTag_none _ _ hfil)]
    rw [List.find?_cons_of_pos]
    · simp [Node.attribGet]
    · simp

/-- Witness for the amended C4: setting the integer `4567` and reading the
field back returns the text `"4567"`. -/
theorem C4_amended_witness :
    ((DynamicModel.setattr ⟨⟨0, Node.mk "ManageableDevice" [] none none []⟩⟩
        "SNMPProfileID" (.scalar (.int 4567))).2.getattr "SNMPProfileID")
      = .ok (.text (some "4567")) := by
  have h := C4_amended ⟨⟨0, Node.mk "ManageableDevice" [] none none []⟩⟩
    "SNMPProfileID" (.int 4567) (by decide) (by decide) (by decide)
  exact h.2

/-- C8 fails on the code when the node initially holds duplicate children
with the target tag: after setting `A` (which replaces only the first
duplicate) and deleting `A` (which removes only the first remaining child
tagged `A`), a child tagged `A` still exists, so the get succeeds instead
of failing with AttributeNotFound. -/
theorem C8_counterexample :
    ((DynamicModel.setattr ⟨⟨0, Node.mk "P" [] none none
        [Node.mk "A" [] (some "u") none [],
         Node.mk "A" [] (some "v") none []]⟩⟩ "A"
      (.scalar (.str "z"))).2.delattr "A").1 = .ok () ∧
    ((DynamicModel.setattr ⟨⟨0, Node.mk "P" [] none none
        [Node.mk "A" [] (some "u") none [],
         Node.mk "A" [] (some "v") none []]⟩⟩ "A"
      (.scalar (.str "z"))).2.delattr "A").2.getattr "A"
      = .ok (.text (some "z")) ∧
    ((DynamicModel.setattr ⟨⟨0, Node.mk "P" [] none none
        [Node.mk "A" [] (some "u") none [],
         Node.mk "A" [] (some "v") none []]⟩⟩ "A"
      (.scalar (.str "z"))).2.delattr "A").2.getattr "A"
      ≠ .error (.attributeError "Attribute not found." "A") := by
  exact ⟨rfl, rfl, by decide⟩

/-- C8 amended: deleting a non-special attribute fails with
AttributeNotFound when no direct child with that tag exists and otherwise
removes the *first* such child; consequently, on a node initially holding
at most one direct child with the tag, deleting a previously-set simple
attribute and then getting it fails with AttributeNotFound. -/
theorem C8_amended (self : DynamicModel) (name : String)
    (h1 : name ≠ "version") (h2 : name ≠ "IsAlso") :
    (self.document.node.findChild name = none →
      self.delattr name
        = (.error (.attributeError "Attribute not found." name), self)) ∧
    (∀ e, self.document.node.findChild name = some e →
      (self.delattr name).1 = .ok () ∧
      (self.delattr name).2.document.node.children
        = removeFirstTag self.document.node.children name) ∧
    (∀ s : Scalar, self.document.node.countTag name ≤ 1 →
      ((self.setattr name (.scalar s)).2.delattr name).1 = .ok () ∧
      (((self.setattr name (.scalar s)).2.delattr name).2.getattr name)
        = .error (.attributeError "Attribute not found." name)) := by
  refine ⟨?_, ?_, ?_⟩
  · intro h
    simp only [DynamicModel.delattr, h]
  · intro e he
    simp only [DynamicModel.delattr, he, DynamicModel.withNode,
      Node.children_withChildren]
    exact ⟨trivial, trivial⟩
  · intro s hdup
    have hfil : (self.document.node.children.filter
        (fun c => c.tag = name)).length ≤ 1 := hdup
    have hnm := removeFirstTag_no_match self.document.node.children name hfil
    have hfind : ((self.setattr name (.scalar s)).2.document.node.findChild
        name) = some (Node.mk name [] (some (encodeScalar s)) none []) := by
      simp only [DynamicModel.setattr, if_neg h1, if_neg h2,
        isinstanceScalarTypes, if_true, scalarToStr_scalar,
        DynamicModel.withNode, Node.findChild, Node.children_withChildren]
      rw [find?_append_of_none _ _ (find?_removeFirstTag_none _ _ hfil)]
      rw [List.find?_cons_of_pos]
      simp
    have hch : (self.setattr name (.scalar s)).2.document.node.children
        = removeFirstTag self.document.node.children name
          ++ [Node.mk name [] (some (encodeScalar s)) none []] := by
      simp only [DynamicModel.setattr, if_neg h1, if_neg h2,
        isinstanceScalarTypes, if_true, scalarToStr_scalar,
        DynamicModel.withNode, Node.children_withChildren]
    have hrem : removeFirstTag
        ((self.setattr name (.scalar s)).2.document.node.children) name
        = removeFirstTag self.document.node.children name := by
      rw [hch, removeFirstTag_append_of_no_match _ _ _ hnm]
      simp [removeFirstTag]
    have hdel2 : ((self.setattr name (.scalar s)).2.delattr
        name).2.document.node.children
        = removeFirstTag self.document.node.children name := by
      simp only [DynamicModel.delattr, hfind, DynamicModel.withNode,
        Node.children_withChildren]
      exact hrem
    constructor
    · simp only [DynamicModel.delattr, hfind]
    · simp only [DynamicModel.getattr, if_neg h1, if_neg h2,
        Node.findChild, hdel2]
      rw [find?_removeFirstTag_none _ _ hfil]

/-- Witness for the amended C8: setting then deleting a fresh field on an
empty document, then getting it, fails with AttributeNotFound. -/
theorem C8_amended_witness :
    (((DynamicModel.setattr ⟨⟨0, Node.mk "P" [] none none []⟩⟩ "A"
        (.scalar (.str "x"))).2.delattr "A").2.getattr "A")
      = .error (.attributeError "Attribute not found." "A") := by
  have h := C8_amended ⟨⟨0, Node.mk "P" [] none none []⟩⟩ "A" (by decide)
    (by decide)
  exact (h.2.2 (.str "x") (by decide)).2
